import Mathlib

/-!
Verification of the Statistics-Pipline-workflow repository core
(`src/eda.py`, `src/method_selector.py`) against its specification.

The Python code is shallowly embedded: numeric values are rationals
(Python floats are a subset of ℚ), a float that may be NaN or infinite is
the inductive type `Fl`, a pandas DataFrame is an association list from
column names to cell lists, exceptions are an `Except PyError` result, and
the external statistical library calls (Levene test, Shapiro/Lilliefors/
Jarque-Bera p-values, KDE peak counting, pandas moment computations) are
oracle parameters, since the embedded logic only branches on their results.
-/

/-- Model of a Python float value as stored in a pandas Series:
a finite rational, NaN, or a signed infinity. -/
inductive Fl where
  | finite (q : ℚ)
  | nan
  | inf
  | ninf
deriving DecidableEq

/-- Python float equality (`==`): NaN compares unequal to everything,
including itself; this is the semantics pandas uses for row masks. -/
def Fl.pyEq : Fl → Fl → Bool
  | Fl.finite a, Fl.finite b => a == b
  | Fl.inf, Fl.inf => true
  | Fl.ninf, Fl.ninf => true
  | _, _ => false

/-- True exactly on finite values (not NaN, not an infinity). -/
def Fl.isFinite : Fl → Bool
  | Fl.finite _ => true
  | _ => false

/-- A cell of a pandas DataFrame column: numeric or a categorical label. -/
inductive Cell where
  | num (x : Fl)
  | str (s : String)
deriving DecidableEq

/-- True on the cells pandas treats as missing (NaN). -/
def Cell.isNa : Cell → Bool
  | Cell.num Fl.nan => true
  | _ => false

/-- Python `==` on cells, with NaN-is-never-equal semantics. -/
def Cell.pyEq : Cell → Cell → Bool
  | Cell.num a, Cell.num b => a.pyEq b
  | Cell.str a, Cell.str b => a == b
  | _, _ => false

/-- A DataFrame, reduced to what the selector touches: named columns. -/
abbrev Frame := List (String × List Cell)

/-- A Python object held in `self.data`: either a pandas DataFrame or
anything else (Series, array, ...), which the selector only type-tests. -/
inductive PyObj where
  | dataFrame (df : Frame)
  | other
deriving DecidableEq

/-- True exactly when the object is a DataFrame (`isinstance(..., pd.DataFrame)`). -/
def PyObj.isDataFrame : PyObj → Bool
  | PyObj.dataFrame _ => true
  | PyObj.other => false

/-- Python exception values that the embedded code can surface. The
`degenerateSample` constructor is the error class the specification
demands for degenerate density-estimation input; nothing in the source
ever raises it, which is exactly what claim C7 is about. -/
inductive PyError where
  | keyError (col : String)
  | valueError (msg : String)
  | linAlgError (msg : String)
  | degenerateSample
deriving DecidableEq

/-- Helper for `uniqueFirst`: keeps the first occurrence of each element,
tracking the already-seen elements. -/
def uniqueAux {α : Type} [DecidableEq α] : List α → List α → List α
  | _, [] => []
  | seen, x :: xs =>
      if x ∈ seen then uniqueAux seen xs else x :: uniqueAux (x :: seen) xs

/-- pandas `Series.unique()`: distinct values in order of first occurrence. -/
def uniqueFirst {α : Type} [DecidableEq α] (l : List α) : List α :=
  uniqueAux [] l

/-- pandas `Series.nunique()`: number of distinct non-missing values. -/
def nunique (col : List Cell) : Nat :=
  (uniqueFirst (col.filter (fun c => !c.isNa))).length

/-- State of a `MethodSelector` instance as built by `__init__`
(src/method_selector.py lines 7-21). -/
structure MethodSelector where
  data : PyObj
  group_col : Option String
  id_col : Option String
  paired : Bool
deriving DecidableEq

/-- Verdict returned by `check_homogeneity`: the Levene p-value and the
homogeneity boolean, both `none` when not applicable. -/
structure HomogeneityVerdict where
  Levene_p : Option ℚ
  Homogeneity : Option Bool
deriving DecidableEq

/-- Embedding of `MethodSelector.check_homogeneity`
(src/method_selector.py lines 23-37). The Levene test itself is external
(scipy); it enters as the oracle `levene_p` giving the p-value from the
per-group data. Column access on a missing column is a `KeyError`. -/
def check_homogeneity (sel : MethodSelector) (value_col : String)
    (levene_p : List (List Cell) → ℚ) : Except PyError HomogeneityVerdict :=
  match sel.data, sel.group_col with
  | PyObj.dataFrame df, some gc =>
      match df.lookup gc with
      | none => Except.error (PyError.keyError gc)
      | some gcol =>
          let groups := uniqueFirst gcol
          if groups.length < 2 then Except.ok ⟨none, none⟩
          else
            match df.lookup value_col with
            | none => Except.error (PyError.keyError value_col)
            | some vcol =>
                let group_data := groups.map (fun g =>
                  (((gcol.zip vcol).filter (fun p => Cell.pyEq p.1 g)).map
                    Prod.snd).filter (fun c => !c.isNa))
                let p := levene_p group_data
                Except.ok ⟨some p, some (decide (p > 0.05))⟩
  | _, _ => Except.ok ⟨none, none⟩

/-- Group count computed inside `recommend_method`
(src/method_selector.py lines 74-76): 1 unless the data is a DataFrame and
`group_col` is truthy (not `None`, not the empty string), in which case it
is `nunique` of that column; a missing column is a `KeyError`. -/
def num_groups_of (sel : MethodSelector) : Except PyError Nat :=
  match sel.data, sel.group_col with
  | PyObj.dataFrame df, some gc =>
      if gc = "" then Except.ok 1
      else
        match df.lookup gc with
        | none => Except.error (PyError.keyError gc)
        | some col => Except.ok (nunique col)
  | _, _ => Except.ok 1

/-- Initial value of `advice` in `recommend_method`
(src/method_selector.py line 45), the placeholder that survives to the
return value when no branch overwrites it. -/
def default_advice : String := "No recommendation."

/-- Embedding of `MethodSelector.recommend_method`
(src/method_selector.py lines 39-106). `homogeneity_check` is `Option Bool`
because the caller may pass the null verdict; `None` defaults to `True`
(line 49). Branch order and all returned strings follow the source. -/
def recommend_method (sel : MethodSelector) (normality_check : Bool)
    (homogeneity_check : Option Bool) : Except PyError (String × String) :=
  let is_normal := normality_check
  let is_homogeneous := homogeneity_check.getD true
  if sel.id_col.isSome then
    let advice := "Data has hierarchical structure (ID column detected)."
    if is_normal then
      Except.ok ("LMM", advice ++ " Recommend Linear Mixed Model (LMM).")
    else
      Except.ok ("GLMM_or_LMM", advice ++
        " Data is non-normal. Recommend Generalized Linear Mixed Model (GLMM) or Transformation + LMM.")
  else if sel.paired then
    if is_normal then
      Except.ok ("Paired T-test", "Data is Normal and Paired.")
    else
      Except.ok ("Wilcoxon Signed-Rank", "Data is Non-Normal and Paired.")
  else
    match num_groups_of sel with
    | Except.error e => Except.error e
    | Except.ok num_groups =>
        if num_groups = 2 then
          if is_normal && is_homogeneous then
            Except.ok ("Independent T-test", "Normality and Homogeneity assumptions met.")
          else if is_normal && !is_homogeneous then
            Except.ok ("Welch\x27s T-test", "Normality met, but Variance is unequal.")
          else
            Except.ok ("Mann-Whitney U", "Normality assumption violated.")
        else if num_groups > 2 then
          if is_normal && is_homogeneous then
            Except.ok ("One-way ANOVA", "Normality and Homogeneity met.")
          else if is_normal && !is_homogeneous then
            Except.ok ("Welch ANOVA", "Normality met, Variance unequal.")
          else
            Except.ok ("Kruskal-Wallis", "Normality violated.")
        else
          if is_normal then
            Except.ok ("One-sample T-test", default_advice)
          else
            Except.ok ("One-sample Wilcoxon", default_advice)

/-- Well-formedness of a selector: whenever the data is a DataFrame and a
truthy group column name was supplied, that column exists, so column access
cannot raise `KeyError`. -/
def wellFormed (sel : MethodSelector) : Prop :=
  ∀ df gc, sel.data = PyObj.dataFrame df → sel.group_col = some gc →
    gc ≠ "" → (df.lookup gc).isSome

deriving instance DecidableEq for Except

/-- Embedding of the clean-sample construction in `EDA_Diagnosis.__init__`
(src/eda.py line 25): `self.clean_data = self.data.dropna()`. pandas
`dropna` removes NaN entries only; infinities are kept. -/
def dropna (xs : List Fl) : List Fl :=
  xs.filter (fun x => !(x == Fl.nan))

/-- The clean sample held by an `EDA_Diagnosis` instance. -/
def EDA_clean_data (xs : List Fl) : List Fl :=
  dropna xs

/-- Modelled from the spec: section 3 defines `CleanSample` as the sample
minus all NON-FINITE entries (NaN and both infinities). This definition
follows the words of the spec and is compared against the source
definition `EDA_clean_data` in claim C8. -/
def cleanSample_spec (xs : List Fl) : List Fl :=
  xs.filter Fl.isFinite

/-- Skewness interpretation chain of `descriptive_stats`
(src/eda.py lines 37-41), written as the equivalent nested conditionals of
the if/elif ladder over the default label. -/
def skew_desc (skew_val : ℚ) : String :=
  if skew_val > 1 then "Highly Positively Skewed"
  else if skew_val > 0.5 then "Moderately Positively Skewed"
  else if skew_val < -1 then "Highly Negatively Skewed"
  else if skew_val < -0.5 then "Moderately Negatively Skewed"
  else "Symmetric"

/-- Kurtosis interpretation chain of `descriptive_stats`
(src/eda.py lines 43-45). -/
def kurt_desc (kurt_val : ℚ) : String :=
  if kurt_val > 1 then "Leptokurtic (Heavy tails/Peaked)"
  else if kurt_val < -1 then "Platykurtic (Light tails/Flat)"
  else "Mesokurtic (Normal-like)"

/-- Result record of `descriptive_stats` (src/eda.py lines 47-54). -/
structure DescStats where
  Mean : ℚ
  Std : ℚ
  Skewness : ℚ
  Kurtosis : ℚ
  Skew_Desc : String
  Kurt_Desc : String
deriving DecidableEq

/-- Embedding of `EDA_Diagnosis.descriptive_stats` (src/eda.py lines
27-54). The four moments are computed by pandas (external numerics) and
enter as parameters; the function packages them with the interpretation
labels exactly as the source does. -/
def descriptive_stats (mean_val std_val skew_val kurt_val : ℚ) : DescStats :=
  { Mean := mean_val
    Std := std_val
    Skewness := skew_val
    Kurtosis := kurt_val
    Skew_Desc := skew_desc skew_val
    Kurt_Desc := kurt_desc kurt_val }

/-- Modelled from the spec: the external density estimator
(`scipy.stats.gaussian_kde`, not part of this repository) crashes with its
own library error on degenerate input — the spec (section 4.1) says
degenerate input would otherwise "let the density estimator crash", and a
zero-variance sample makes its covariance matrix singular. On good input
it returns a handle, modelled here as the sample itself. Over ℚ,
"fewer than 2 distinct values" and "zero variance" coincide. -/
def gaussian_kde (sample : List ℚ) : Except PyError (List ℚ) :=
  if (uniqueFirst sample).length < 2 then
    Except.error (PyError.linAlgError "singular matrix")
  else
    Except.ok sample

/-- Modality label assignment in `check_multimodality`
(src/eda.py lines 115-119). -/
def modality_label (num_peaks : Nat) : String :=
  if num_peaks = 2 then "Bimodal"
  else if num_peaks > 2 then "Multimodal"
  else "Unimodal"

/-- Embedding of `EDA_Diagnosis.check_multimodality` (src/eda.py lines
100-121). The KDE evaluation on 1000 grid points and `find_peaks` are
external numerics; they enter as the oracle `find_peaks_count` applied to
the KDE handle. There is no degeneracy guard and no exception handler in
the source: whatever `gaussian_kde` produces propagates. -/
def check_multimodality (find_peaks_count : List ℚ → Nat)
    (clean_data : List ℚ) : Except PyError (Nat × String) :=
  match gaussian_kde clean_data with
  | Except.error e => Except.error e
  | Except.ok kde_handle =>
      let num_peaks := find_peaks_count kde_handle
      Except.ok (num_peaks, modality_label num_peaks)

/-- pandas `Series.min()` over a nonempty clean sample (src/eda.py line
158); the empty case is unreachable there because the KDE call has already
succeeded. -/
def series_min (xs : List ℚ) : ℚ :=
  match xs with
  | [] => 0
  | y :: ys => ys.foldl (fun a b => if b < a then b else a) y

/-- Result record of `check_distribution` (src/eda.py lines 167-175). -/
structure DistributionVerdict where
  Shapiro_Wilk_p : ℚ
  Lilliefors_p : ℚ
  Jarque_Bera_p : ℚ
  Is_Normal_Assumption : Bool
  Modality : String
  Num_Peaks : Nat
  Advice : String
deriving DecidableEq

/-- Embedding of `EDA_Diagnosis.check_distribution` (src/eda.py lines
123-175). The three external normality tests enter as their p-values
(`shapiro_p`, `ks_p`, `jb_p`); the pandas skewness of the clean sample
enters as the oracle `skew`; peak counting as in `check_multimodality`.
The large-sample warning (line 136) is non-fatal and does not change any
returned field, so it is not modelled. The decision `is_normal` and the
advice assembly follow lines 147-165. -/
def check_distribution (shapiro_p ks_p jb_p : ℚ)
    (find_peaks_count : List ℚ → Nat) (skew : List ℚ → ℚ)
    (clean_data : List ℚ) : Except PyError DistributionVerdict :=
  match check_multimodality find_peaks_count clean_data with
  | Except.error e => Except.error e
  | Except.ok (num_peaks, modality) =>
      let is_normal := decide (shapiro_p > 0.05)
      let advice :=
        if is_normal then "Data appears Normal. Proceed with Parametric Tests."
        else
          let a0 := "Data is NOT Normal. "
          let a1 :=
            if modality ≠ "Unimodal" then
              a0 ++ "Data appears " ++ modality ++ " (" ++ toString num_peaks ++
                " peaks). Consider mixture models or splitting data. "
            else a0
          if skew clean_data > 1 then
            if series_min clean_data > 0 then
              a1 ++ "Positive Skew: Consider Log or Box-Cox Transform."
            else
              a1 ++ "Positive Skew: Consider Square Root (if >=0) or Non-parametric tests."
          else if skew clean_data < -1 then
            a1 ++ "Negative Skew: Consider Reflect & Log or Non-parametric tests."
          else
            a1 ++ "Consider Non-parametric tests."
      Except.ok
        { Shapiro_Wilk_p := shapiro_p
          Lilliefors_p := ks_p
          Jarque_Bera_p := jb_p
          Is_Normal_Assumption := is_normal
          Modality := modality
          Num_Peaks := num_peaks
          Advice := advice }

/-- C1: with a subject/cluster identifier present, the hierarchical branch
of `recommend_method` fires first and returns method `LMM` when the data is
normal and `GLMM_or_LMM` when it is not, for every data object, group
column, pairing flag and homogeneity verdict: later branches are
unreachable once this branch fires. -/
theorem C1_hierarchical_branch (d : PyObj) (gc : Option String) (ic : String)
    (pr n : Bool) (h : Option Bool) :
    recommend_method ⟨d, gc, some ic, pr⟩ n h =
      Except.ok (if n then
        ("LMM",
          "Data has hierarchical structure (ID column detected). Recommend Linear Mixed Model (LMM).")
      else
        ("GLMM_or_LMM",
          "Data has hierarchical structure (ID column detected). Data is non-normal. Recommend Generalized Linear Mixed Model (GLMM) or Transformation + LMM.")) := by
  cases n <;> rfl

/-- C2: with no subject identifier and no pairing, calling
`recommend_method` with the null homogeneity verdict returns exactly the
same (method, rationale) pair as calling it with the verdict true, for
every normality value and every structural context (2 groups, more than 2
groups, or the single-group fallback). -/
theorem C2_null_verdict_as_true (d : PyObj) (gc : Option String) (n : Bool) :
    recommend_method ⟨d, gc, none, false⟩ n none =
      recommend_method ⟨d, gc, none, false⟩ n (some true) := rfl

/-- C4: with no subject identifier, no pairing, and a group count of
exactly 2, a non-normal verdict makes `recommend_method` return
Mann-Whitney U for every homogeneity value (true, false, or null). -/
theorem C4_two_groups_nonnormal (sel : MethodSelector) (h : Option Bool)
    (hid : sel.id_col = none) (hpr : sel.paired = false)
    (hng : num_groups_of sel = Except.ok 2) :
    recommend_method sel false h =
      Except.ok ("Mann-Whitney U", "Normality assumption violated.") := by
  simp [recommend_method, hid, hpr, hng]

/-- Witness for C4 at a concrete two-group DataFrame, with the three
homogeneity arguments all giving Mann-Whitney U. -/
theorem C4_two_groups_nonnormal_witness :
    num_groups_of ⟨PyObj.dataFrame [("Group", [Cell.str "A", Cell.str "B"])],
        some "Group", none, false⟩ = Except.ok 2 ∧
    recommend_method ⟨PyObj.dataFrame [("Group", [Cell.str "A", Cell.str "B"])],
        some "Group", none, false⟩ false (some false) =
      Except.ok ("Mann-Whitney U", "Normality assumption violated.") :=
  ⟨rfl, C4_two_groups_nonnormal _ (some false) rfl rfl rfl⟩

/-- C9: whenever the held data is not a DataFrame, or no group column was
supplied, or the group column has fewer than 2 distinct labels,
`check_homogeneity` returns the null verdict and does not raise. -/
theorem C9_homogeneity_null_verdict (d : PyObj) (gc ic : Option String)
    (pr : Bool) (value_col : String) (lev : List (List Cell) → ℚ)
    (h : d.isDataFrame = false ∨ gc = none ∨
      ∃ df g gcol, d = PyObj.dataFrame df ∧ gc = some g ∧
        df.lookup g = some gcol ∧ (uniqueFirst gcol).length < 2) :
    check_homogeneity ⟨d, gc, ic, pr⟩ value_col lev = Except.ok ⟨none, none⟩ := by
  rcases h with h | h | ⟨df, g, gcol, hd, hg, hl, hlen⟩
  · cases d with
    | dataFrame df => simp [PyObj.isDataFrame] at h
    | other => cases gc <;> rfl
  · subst h; cases d <;> rfl
  · subst hd; subst hg
    simp [check_homogeneity, hl, hlen]

/-- Witness for C9 at a concrete non-DataFrame selector. -/
theorem C9_homogeneity_null_verdict_witness :
    PyObj.isDataFrame PyObj.other = false ∧
    check_homogeneity ⟨PyObj.other, none, none, false⟩ "Value" (fun _ => 0) =
      Except.ok ⟨none, none⟩ :=
  ⟨rfl, C9_homogeneity_null_verdict PyObj.other none none false "Value"
    (fun _ => 0) (Or.inl rfl)⟩

/-- C10: with a non-DataFrame data object or no group column, no subject
identifier and no pairing, `recommend_method` counts one group and returns
the one-sample tests, for every homogeneity argument and regardless of any
grouping actually present in the data. -/
theorem C10_one_sample_fallback (d : PyObj) (gc : Option String) (n : Bool)
    (h : Option Bool) (hng : d.isDataFrame = false ∨ gc = none) :
    num_groups_of ⟨d, gc, none, false⟩ = Except.ok 1 ∧
    recommend_method ⟨d, gc, none, false⟩ n h =
      Except.ok (if n then ("One-sample T-test", default_advice)
        else ("One-sample Wilcoxon", default_advice)) := by
  have h1 : num_groups_of ⟨d, gc, none, false⟩ = Except.ok 1 := by
    rcases hng with h' | h'
    · cases d with
      | dataFrame df => simp [PyObj.isDataFrame] at h'
      | other => cases gc <;> rfl
    · subst h'; cases d <;> rfl
  refine ⟨h1, ?_⟩
  cases n <;> simp [recommend_method, h1]

/-- Witness for C10: a DataFrame that does contain a two-label group
column, but the selector was built with no group column, so the one-sample
branch still fires. -/
theorem C10_one_sample_fallback_witness :
    ((PyObj.dataFrame [("Group", [Cell.str "A", Cell.str "B"])]).isDataFrame = false ∨
      (none : Option String) = none) ∧
    num_groups_of ⟨PyObj.dataFrame [("Group", [Cell.str "A", Cell.str "B"])],
        none, none, false⟩ = Except.ok 1 ∧
    recommend_method ⟨PyObj.dataFrame [("Group", [Cell.str "A", Cell.str "B"])],
        none, none, false⟩ true (some false) =
      Except.ok (if true then ("One-sample T-test", default_advice)
        else ("One-sample Wilcoxon", default_advice)) :=
  ⟨Or.inr rfl,
    C10_one_sample_fallback (PyObj.dataFrame [("Group", [Cell.str "A", Cell.str "B"])])
      none true (some false) (Or.inr rfl)⟩

/-- C3 counterexample: in the single-group branch the `advice` variable is
never overwritten, so the returned rationale is exactly the initialization
placeholder of line 45 — refuting the part of C3 that says every branch
returns a rationale naming the assumptions, never a default placeholder. -/
theorem C3_counterexample :
    (recommend_method ⟨PyObj.other, none, none, false⟩ true none).map Prod.snd =
      Except.ok default_advice := rfl

/-- C3 (amended): over well-formed selectors (a truthy group column on a
DataFrame names an existing column) `recommend_method` is total — it
always returns a (method, rationale) pair and never raises — and the
rationale is the untouched default placeholder exactly when the final
single-group branch fires (no id column, not paired, group count at most
1); every other branch overwrites it with a rationale naming the
assumptions. -/
theorem C3_total_with_placeholder (d : PyObj) (gc : Option String)
    (ic : Option String) (pr n : Bool) (h : Option Bool)
    (hwf : wellFormed ⟨d, gc, ic, pr⟩) :
    ∃ m a k, num_groups_of ⟨d, gc, ic, pr⟩ = Except.ok k ∧
      recommend_method ⟨d, gc, ic, pr⟩ n h = Except.ok (m, a) ∧
      (a = default_advice ↔ ic = none ∧ pr = false ∧ k ≤ 1) := by
  obtain ⟨k, hk⟩ : ∃ k, num_groups_of ⟨d, gc, ic, pr⟩ = Except.ok k := by
    cases d with
    | other => cases gc <;> exact ⟨1, rfl⟩
    | dataFrame df =>
      cases gc with
      | none => exact ⟨1, rfl⟩
      | some g =>
        by_cases hg : g = ""
        · subst hg; exact ⟨1, rfl⟩
        · have hs := hwf df g rfl rfl hg
          obtain ⟨col, hcol⟩ := Option.isSome_iff_exists.mp hs
          exact ⟨nunique col, by simp [num_groups_of, hg, hcol]⟩
  cases ic with
  | some i =>
    cases n with
    | true =>
      exact ⟨"LMM",
        "Data has hierarchical structure (ID column detected). Recommend Linear Mixed Model (LMM).",
        k, hk, rfl, iff_of_false (by decide) (by rintro ⟨hc, -, -⟩; cases hc)⟩
    | false =>
      exact ⟨"GLMM_or_LMM",
        "Data has hierarchical structure (ID column detected). Data is non-normal. Recommend Generalized Linear Mixed Model (GLMM) or Transformation + LMM.",
        k, hk, rfl, iff_of_false (by decide) (by rintro ⟨hc, -, -⟩; cases hc)⟩
  | none =>
    cases pr with
    | true =>
      cases n with
      | true =>
        exact ⟨"Paired T-test", "Data is Normal and Paired.", k, hk, rfl,
          iff_of_false (by decide) (by rintro ⟨-, hc, -⟩; cases hc)⟩
      | false =>
        exact ⟨"Wilcoxon Signed-Rank", "Data is Non-Normal and Paired.", k, hk, rfl,
          iff_of_false (by decide) (by rintro ⟨-, hc, -⟩; cases hc)⟩
    | false =>
      rcases Nat.lt_trichotomy k 2 with hlt | heq | hgt
      · have h2 : ¬ k = 2 := by omega
        have h3 : ¬ k > 2 := by omega
        cases n with
        | true =>
          refine ⟨"One-sample T-test", default_advice, k, hk, ?_, ?_⟩
          · simp [recommend_method, hk, h2, h3]
          · exact iff_of_true rfl ⟨rfl, rfl, by omega⟩
        | false =>
          refine ⟨"One-sample Wilcoxon", default_advice, k, hk, ?_, ?_⟩
          · simp [recommend_method, hk, h2, h3]
          · exact iff_of_true rfl ⟨rfl, rfl, by omega⟩
      · subst heq
        cases n with
        | false =>
          refine ⟨"Mann-Whitney U", "Normality assumption violated.", 2, hk, ?_, ?_⟩
          · simp [recommend_method, hk]
          · exact iff_of_false (by decide) (by rintro ⟨-, -, hc⟩; omega)
        | true =>
          rcases hb : h.getD true with _ | _
          · refine ⟨"Welch\x27s T-test", "Normality met, but Variance is unequal.",
              2, hk, ?_, ?_⟩
            · simp [recommend_method, hk, hb]
            · exact iff_of_false (by decide) (by rintro ⟨-, -, hc⟩; omega)
          · refine ⟨"Independent T-test", "Normality and Homogeneity assumptions met.",
              2, hk, ?_, ?_⟩
            · simp [recommend_method, hk, hb]
            · exact iff_of_false (by decide) (by rintro ⟨-, -, hc⟩; omega)
      · have h2 : ¬ k = 2 := by omega
        cases n with
        | false =>
          refine ⟨"Kruskal-Wallis", "Normality violated.", k, hk, ?_, ?_⟩
          · simp [recommend_method, hk, h2, hgt]
          · exact iff_of_false (by decide) (by rintro ⟨-, -, hc⟩; omega)
        | true =>
          rcases hb : h.getD true with _ | _
          · refine ⟨"Welch ANOVA", "Normality met, Variance unequal.", k, hk, ?_, ?_⟩
            · simp [recommend_method, hk, h2, hgt, hb]
            · exact iff_of_false (by decide) (by rintro ⟨-, -, hc⟩; omega)
          · refine ⟨"One-way ANOVA", "Normality and Homogeneity met.", k, hk, ?_, ?_⟩
            · simp [recommend_method, hk, h2, hgt, hb]
            · exact iff_of_false (by decide) (by rintro ⟨-, -, hc⟩; omega)

/-- Witness for C3 (amended) at a concrete well-formed selector with no
grouping: the single-group branch fires and the rationale is the
placeholder. -/
theorem C3_total_with_placeholder_witness :
    wellFormed ⟨PyObj.other, none, none, false⟩ ∧
    (∃ m a k, num_groups_of ⟨PyObj.other, none, none, false⟩ = Except.ok k ∧
      recommend_method ⟨PyObj.other, none, none, false⟩ true none = Except.ok (m, a) ∧
      (a = default_advice ↔ (none : Option String) = none ∧ false = false ∧ k ≤ 1)) :=
  have hwf : wellFormed ⟨PyObj.other, none, none, false⟩ :=
    fun _ _ hd _ _ => absurd hd (by simp)
  ⟨hwf, C3_total_with_placeholder PyObj.other none none false true none hwf⟩

lemma skew_desc_eq_symmetric (s : ℚ) :
    skew_desc s = "Symmetric" ↔ -0.5 ≤ s ∧ s ≤ 0.5 := by
  unfold skew_desc
  split_ifs with h1 h2 h3 h4
  · exact iff_of_false (by decide) (by rintro ⟨ha, hb⟩; linarith)
  · exact iff_of_false (by decide) (by rintro ⟨ha, hb⟩; linarith)
  · exact iff_of_false (by decide) (by rintro ⟨ha, hb⟩; linarith)
  · exact iff_of_false (by decide) (by rintro ⟨ha, hb⟩; linarith)
  · exact iff_of_true rfl ⟨by linarith, by linarith⟩

lemma skew_desc_eq_modpos (s : ℚ) :
    skew_desc s = "Moderately Positively Skewed" ↔ 0.5 < s ∧ s ≤ 1 := by
  unfold skew_desc
  split_ifs with h1 h2 h3 h4
  · exact iff_of_false (by decide) (by rintro ⟨ha, hb⟩; linarith)
  · exact iff_of_true rfl ⟨h2, by linarith⟩
  · exact iff_of_false (by decide) (by rintro ⟨ha, hb⟩; linarith)
  · exact iff_of_false (by decide) (by rintro ⟨ha, hb⟩; linarith)
  · exact iff_of_false (by decide) (by rintro ⟨ha, hb⟩; linarith)

lemma skew_desc_eq_modneg (s : ℚ) :
    skew_desc s = "Moderately Negatively Skewed" ↔ -1 ≤ s ∧ s < -0.5 := by
  unfold skew_desc
  split_ifs with h1 h2 h3 h4
  · exact iff_of_false (by decide) (by rintro ⟨ha, hb⟩; linarith)
  · exact iff_of_false (by decide) (by rintro ⟨ha, hb⟩; linarith)
  · exact iff_of_false (by decide) (by rintro ⟨ha, hb⟩; linarith)
  · exact iff_of_true rfl ⟨by linarith, h4⟩
  · exact iff_of_false (by decide) (by rintro ⟨ha, hb⟩; linarith)

lemma skew_desc_eq_highpos (s : ℚ) :
    skew_desc s = "Highly Positively Skewed" ↔ 1 < s := by
  unfold skew_desc
  split_ifs with h1 h2 h3 h4
  · exact iff_of_true rfl h1
  · exact iff_of_false (by decide) (by intro hc; linarith)
  · exact iff_of_false (by decide) (by intro hc; linarith)
  · exact iff_of_false (by decide) (by intro hc; linarith)
  · exact iff_of_false (by decide) (by intro hc; linarith)

lemma skew_desc_eq_highneg (s : ℚ) :
    skew_desc s = "Highly Negatively Skewed" ↔ s < -1 := by
  unfold skew_desc
  split_ifs with h1 h2 h3 h4
  · exact iff_of_false (by decide) (by intro hc; linarith)
  · exact iff_of_false (by decide) (by intro hc; linarith)
  · exact iff_of_true rfl h3
  · exact iff_of_false (by decide) (by intro hc; linarith)
  · exact iff_of_false (by decide) (by intro hc; linarith)

lemma kurt_desc_eq_meso (kv : ℚ) :
    kurt_desc kv = "Mesokurtic (Normal-like)" ↔ -1 ≤ kv ∧ kv ≤ 1 := by
  unfold kurt_desc
  split_ifs with h1 h2
  · exact iff_of_false (by decide) (by rintro ⟨ha, hb⟩; linarith)
  · exact iff_of_false (by decide) (by rintro ⟨ha, hb⟩; linarith)
  · exact iff_of_true rfl ⟨by linarith, by linarith⟩

lemma kurt_desc_eq_lepto (kv : ℚ) :
    kurt_desc kv = "Leptokurtic (Heavy tails/Peaked)" ↔ 1 < kv := by
  unfold kurt_desc
  split_ifs with h1 h2
  · exact iff_of_true rfl h1
  · exact iff_of_false (by decide) (by intro hc; linarith)
  · exact iff_of_false (by decide) (by intro hc; linarith)

lemma kurt_desc_eq_platy (kv : ℚ) :
    kurt_desc kv = "Platykurtic (Light tails/Flat)" ↔ kv < -1 := by
  unfold kurt_desc
  split_ifs with h1 h2
  · exact iff_of_false (by decide) (by intro hc; linarith)
  · exact iff_of_true rfl h2
  · exact iff_of_false (by decide) (by intro hc; linarith)

lemma skew_desc_total (s : ℚ) :
    skew_desc s = "Symmetric" ∨ skew_desc s = "Moderately Positively Skewed" ∨
    skew_desc s = "Moderately Negatively Skewed" ∨
    skew_desc s = "Highly Positively Skewed" ∨
    skew_desc s = "Highly Negatively Skewed" := by
  unfold skew_desc
  split_ifs
  · exact Or.inr (Or.inr (Or.inr (Or.inl rfl)))
  · exact Or.inr (Or.inl rfl)
  · exact Or.inr (Or.inr (Or.inr (Or.inr rfl)))
  · exact Or.inr (Or.inr (Or.inl rfl))
  · exact Or.inl rfl

lemma kurt_desc_total (kv : ℚ) :
    kurt_desc kv = "Mesokurtic (Normal-like)" ∨
    kurt_desc kv = "Leptokurtic (Heavy tails/Peaked)" ∨
    kurt_desc kv = "Platykurtic (Light tails/Flat)" := by
  unfold kurt_desc
  split_ifs
  · exact Or.inr (Or.inl rfl)
  · exact Or.inr (Or.inr rfl)
  · exact Or.inl rfl

/-- C5: `descriptive_stats` labels skewness with `Symmetric` exactly on
[-0.5, 0.5], the moderate labels exactly on (0.5, 1] and [-1, -0.5), the
high labels strictly beyond plus or minus 1, and kurtosis with the
mesokurtic label exactly on [-1, 1], leptokurtic strictly above 1,
platykurtic strictly below -1; every skewness and kurtosis value receives
exactly one of these labels (a total, deterministic partition). -/
theorem C5_moment_label_partition (mean_val std_val s kv : ℚ) :
    ((descriptive_stats mean_val std_val s kv).Skew_Desc = "Symmetric" ↔
      -0.5 ≤ s ∧ s ≤ 0.5) ∧
    ((descriptive_stats mean_val std_val s kv).Skew_Desc = "Moderately Positively Skewed" ↔
      0.5 < s ∧ s ≤ 1) ∧
    ((descriptive_stats mean_val std_val s kv).Skew_Desc = "Moderately Negatively Skewed" ↔
      -1 ≤ s ∧ s < -0.5) ∧
    ((descriptive_stats mean_val std_val s kv).Skew_Desc = "Highly Positively Skewed" ↔
      1 < s) ∧
    ((descriptive_stats mean_val std_val s kv).Skew_Desc = "Highly Negatively Skewed" ↔
      s < -1) ∧
    ((descriptive_stats mean_val std_val s kv).Kurt_Desc = "Mesokurtic (Normal-like)" ↔
      -1 ≤ kv ∧ kv ≤ 1) ∧
    ((descriptive_stats mean_val std_val s kv).Kurt_Desc = "Leptokurtic (Heavy tails/Peaked)" ↔
      1 < kv) ∧
    ((descriptive_stats mean_val std_val s kv).Kurt_Desc = "Platykurtic (Light tails/Flat)" ↔
      kv < -1) ∧
    ((descriptive_stats mean_val std_val s kv).Skew_Desc = "Symmetric" ∨
      (descriptive_stats mean_val std_val s kv).Skew_Desc = "Moderately Positively Skewed" ∨
      (descriptive_stats mean_val std_val s kv).Skew_Desc = "Moderately Negatively Skewed" ∨
      (descriptive_stats mean_val std_val s kv).Skew_Desc = "Highly Positively Skewed" ∨
      (descriptive_stats mean_val std_val s kv).Skew_Desc = "Highly Negatively Skewed") ∧
    ((descriptive_stats mean_val std_val s kv).Kurt_Desc = "Mesokurtic (Normal-like)" ∨
      (descriptive_stats mean_val std_val s kv).Kurt_Desc = "Leptokurtic (Heavy tails/Peaked)" ∨
      (descriptive_stats mean_val std_val s kv).Kurt_Desc = "Platykurtic (Light tails/Flat)") :=
  ⟨skew_desc_eq_symmetric s, skew_desc_eq_modpos s, skew_desc_eq_modneg s,
    skew_desc_eq_highpos s, skew_desc_eq_highneg s, kurt_desc_eq_meso kv,
    kurt_desc_eq_lepto kv, kurt_desc_eq_platy kv, skew_desc_total s,
    kurt_desc_total kv⟩

/-- C6: the `Is_Normal_Assumption` field of a successful
`check_distribution` result equals the Shapiro-Wilk comparison
`shapiro_p > 0.05` exactly, and replacing the Lilliefors and Jarque-Bera
p-values by any other values leaves the boolean verdict unchanged. -/
theorem C6_is_normal_from_shapiro_only (sp kp jp kp' jp' : ℚ)
    (f : List ℚ → Nat) (sk : List ℚ → ℚ) (cd : List ℚ)
    (v : DistributionVerdict)
    (hv : check_distribution sp kp jp f sk cd = Except.ok v) :
    v.Is_Normal_Assumption = decide (sp > 0.05) ∧
    (check_distribution sp kp' jp' f sk cd).map DistributionVerdict.Is_Normal_Assumption =
      Except.ok v.Is_Normal_Assumption := by
  unfold check_distribution at hv ⊢
  cases hmm : check_multimodality f cd with
  | error e => rw [hmm] at hv; cases hv
  | ok nm =>
    obtain ⟨np, md⟩ := nm
    rw [hmm] at hv
    injection hv with hv
    subst hv
    exact ⟨rfl, rfl⟩

/-- Witness for C6 at concrete inputs: a Shapiro p-value of 1/10 gives a
true verdict, unchanged when the other two p-values move. -/
theorem C6_is_normal_from_shapiro_only_witness :
    check_distribution (1/10) (1/100) (1/50) (fun _ => 1) (fun _ => 0) [1, 2, 3] =
      Except.ok ⟨1/10, 1/100, 1/50, true, "Unimodal", 1,
        "Data appears Normal. Proceed with Parametric Tests."⟩ ∧
    (true = decide ((1/10 : ℚ) > 0.05) ∧
      (check_distribution (1/10) (1/2) (1/3) (fun _ => 1) (fun _ => 0)
        [1, 2, 3]).map DistributionVerdict.Is_Normal_Assumption = Except.ok true) := by
  have hok : check_distribution (1/10) (1/100) (1/50) (fun _ => 1) (fun _ => 0) [1, 2, 3] =
      Except.ok ⟨1/10, 1/100, 1/50, true, "Unimodal", 1,
        "Data appears Normal. Proceed with Parametric Tests."⟩ := by
    norm_num [check_distribution, check_multimodality, gaussian_kde, uniqueFirst,
      uniqueAux, modality_label]
  exact ⟨hok, C6_is_normal_from_shapiro_only (1/10) (1/100) (1/50) (1/2) (1/3)
    (fun _ => 1) (fun _ => 0) [1, 2, 3] _ hok⟩

/-- C7 counterexample: on the degenerate sample [1, 1, 1] (a single
distinct value, zero variance) `check_multimodality` surfaces the density
estimator crash, not a `DegenerateSample` error — no such guard exists in
the source. -/
theorem C7_counterexample :
    check_multimodality (fun _ => 0) [1, 1, 1] =
      Except.error (PyError.linAlgError "singular matrix") ∧
    check_multimodality (fun _ => 0) [1, 1, 1] ≠
      Except.error PyError.degenerateSample := by
  constructor
  · rfl
  · intro hc
    rw [(rfl : check_multimodality (fun _ => 0) [1, 1, 1] =
      Except.error (PyError.linAlgError "singular matrix"))] at hc
    cases hc

/-- C7 (amended): on every degenerate clean sample (fewer than 2 distinct
values — equivalently zero variance over the rationals)
`check_multimodality` propagates the density estimator error itself; it
never raises `DegenerateSample`. -/
theorem C7_degenerate_propagates_kde_error (f : List ℚ → Nat) (cd : List ℚ)
    (hdeg : (uniqueFirst cd).length < 2) :
    check_multimodality f cd = Except.error (PyError.linAlgError "singular matrix") := by
  unfold check_multimodality gaussian_kde
  simp [hdeg]

/-- Witness for C7 (amended) at the degenerate sample [1, 1, 1]. -/
theorem C7_degenerate_propagates_kde_error_witness :
    (uniqueFirst ([1, 1, 1] : List ℚ)).length < 2 ∧
    check_multimodality (fun _ => 0) [1, 1, 1] =
      Except.error (PyError.linAlgError "singular matrix") :=
  have hdeg : (uniqueFirst ([1, 1, 1] : List ℚ)).length < 2 := by
    norm_num [uniqueFirst, uniqueAux]
  ⟨hdeg, C7_degenerate_propagates_kde_error (fun _ => 0) [1, 1, 1] hdeg⟩

/-- C8 counterexample: an input containing a positive infinity: pandas
`dropna` keeps it, while the spec-level clean sample (all non-finite
entries removed) drops it. -/
theorem C8_counterexample :
    EDA_clean_data [Fl.finite 1, Fl.inf, Fl.finite 2] ≠
      cleanSample_spec [Fl.finite 1, Fl.inf, Fl.finite 2] := by
  intro hc
  rw [(rfl : EDA_clean_data [Fl.finite 1, Fl.inf, Fl.finite 2] =
    [Fl.finite 1, Fl.inf, Fl.finite 2])] at hc
  rw [(rfl : cleanSample_spec [Fl.finite 1, Fl.inf, Fl.finite 2] =
    [Fl.finite 1, Fl.finite 2])] at hc
  cases hc

/-- C8 (amended): the clean sample built by the constructor is the input
with exactly the NaN entries removed: it is a subsequence of the input
(order preserved), contains no NaN, and keeps every non-NaN entry —
including infinities — with its multiplicity. -/
theorem C8_clean_data_drops_nan_only (xs : List Fl) :
    (EDA_clean_data xs).Sublist xs ∧
    (∀ x, x ∈ EDA_clean_data xs → x ≠ Fl.nan) ∧
    (∀ x, x ≠ Fl.nan → List.count x (EDA_clean_data xs) = List.count x xs) := by
  refine ⟨List.filter_sublist xs, ?_, ?_⟩
  · intro x hx
    have hmem := List.mem_filter.mp hx
    simpa using hmem.2
  · intro x hx
    exact List.count_filter (by simpa using hx)

/-- Witness for C8 (amended) at a concrete input holding a NaN and an
infinity. -/
theorem C8_clean_data_drops_nan_only_witness :
    (EDA_clean_data [Fl.finite 1, Fl.nan, Fl.inf]).Sublist
        [Fl.finite 1, Fl.nan, Fl.inf] ∧
    (∀ x, x ∈ EDA_clean_data [Fl.finite 1, Fl.nan, Fl.inf] → x ≠ Fl.nan) ∧
    (∀ x, x ≠ Fl.nan →
      List.count x (EDA_clean_data [Fl.finite 1, Fl.nan, Fl.inf]) =
        List.count x [Fl.finite 1, Fl.nan, Fl.inf]) :=
  C8_clean_data_drops_nan_only [Fl.finite 1, Fl.nan, Fl.inf]
